import Mathlib

/-!
Verification of the `data-accessor` client-side cache coordinator.

The development shallowly embeds the core of `src/query/create_hook.tsx`
and `src/suspend.tsx`:

* `suspend` (suspend.tsx) is modelled as a map from the settlement state of
  the wrapped promise to the state of the returned probe (`suspendStateOf`),
  together with the probe's behaviour when invoked (`probeCall`).
* The two bookkeeping maps of the cache store (`dataAccess.query` and
  `dataAccess.suspense`) are modelled at the cache key the call derives
  (`KeyState`): every operation of the engine reads and writes the maps at
  that single key only, so the per-key state captures each call exactly.
* Promises are modelled by handles carrying the mutable
  `(promise as any).state.isQueryFinished` flag as a snapshot
  (`PromiseHandle`); `Date.now()` / `performance.now()` are explicit `Nat`
  inputs; the externally owned materialized cache read `cache.get(...)` is an
  explicit `Option` input, since it is an opaque caller-supplied collaborator.
* Each engine step returns its result, the updated key state, the number of
  invocations of the external `query` function it performed, and the list of
  `console.log` lines it emitted (emitted only when `debug` is set, mirroring
  the `debug && console.log(...)` gating in the source).
-/

namespace DataAccessor

/-- JavaScript error values thrown or stored by the library.  `error` is a
plain `new Error(msg)`; `timedOut` is the `ErrorTimedOut` subclass of
`query/types.tsx` (carrying the query name and cache key); `typeError` is a
runtime `TypeError` raised by the JavaScript engine itself (e.g. a property
read on `null`).  All of these are `instanceof Error`. -/
inductive JsError where
  | error (msg : String)
  | timedOut (queryName : String) (cacheId : String)
  | typeError (msg : String)
deriving DecidableEq

/-- The `message` property of the error value.  `ErrorTimedOut` builds its
message in its constructor (query/types.tsx lines 66-70). -/
def JsError.message : JsError → String
  | .error m => m
  | .timedOut q c => "Data accessor " ++ q ++ " with id " ++ c ++ " timed out."
  | .typeError m => m

/-- Settlement state of an underlying asynchronous operation (a promise):
still unsettled, resolved with a value, or rejected with an error. -/
inductive Settlement (T : Type) where
  | unsettled
  | resolved (v : T)
  | rejected (e : JsError)
deriving DecidableEq

/-- State of a probe produced by `suspend` (suspend.tsx lines 13-24): the
local `status` variable together with the `result` slot.  While `status` is
`pending` the probe holds the suspender promise (`promise.then(...)`,
modelled by the id of the wrapped operation); on success it holds the
response; on error it holds the error value. -/
inductive ProbeState (T : Type) where
  | pending (suspenderPid : Nat)
  | success (v : T)
  | error (e : JsError)
deriving DecidableEq

/-- What invoking a probe does: throw the suspender promise (the suspend
signal), throw an error value, or return the resolved value. -/
inductive ProbeOutcome (T : Type) where
  | suspendThrow (suspenderPid : Nat)
  | raised (e : JsError)
  | value (v : T)
deriving DecidableEq

/-- suspend.tsx lines 15-24: the handlers installed by
`promise.then(response => ..., error => ...)` set `status`/`result` from the
settlement of the wrapped promise.  `pid` identifies the wrapped pending
operation (the suspender is chained directly on it). -/
def suspendStateOf {T : Type} (pid : Nat) : Settlement T → ProbeState T
  | .unsettled => .pending pid
  | .resolved v => .success v
  | .rejected e => .error e

/-- suspend.tsx lines 26-35: the returned zero-argument closure.
`case 'pending'` throws the suspender; `case 'error'` throws the stored
result (the error value); the default case returns the stored result. -/
def probeCall {T : Type} : ProbeState T → ProbeOutcome T
  | .pending pid => .suspendThrow pid
  | .success v => .value v
  | .error e => .raised e

/-- Shape of the value the external `query` function resolves with
(`AccessorQueryRequestResponse` in query/types.tsx): a status code, optional
data and an optional error string. -/
structure QueryResponse (T : Type) where
  status : Int
  data : Option T
  error : Option String
deriving DecidableEq

/-- JavaScript truthiness of an optional string field: `undefined` (absent)
and the empty string are falsy, any non-empty string is truthy.  This is the
test both `response.error || ...` and the template ternary
`response.error ? ... : ...` perform. -/
def strTruthy : Option String → Bool
  | none => false
  | some s => !(s == "")

/-- create_hook.tsx line 155: the response-validation condition
`response.status !== 200 || response.error || !response.data`. -/
def responseFails {T : Type} (r : QueryResponse T) : Bool :=
  (r.status != 200) || strTruthy r.error || r.data.isNone

/-- create_hook.tsx lines 156-160: the message of the thrown error, built by
the template literal.  When `response.error` is truthy the tail is
`": " ++ error`, otherwise it is `"."`. -/
def responseFailMessage {T : Type} (r : QueryResponse T) : String :=
  "(" ++ toString r.status ++ ") Response failed" ++
    (if strTruthy r.error then ": " ++ r.error.getD "" else ".")

/-- create_hook.tsx lines 149-172: outcome of the query promise once the
external query resolved with `r`.  A validation violation rejects the
promise with the failure; otherwise the validated data is handed to the
external `cache.set` collaborator and the promise resolves. -/
def queryPromiseOutcome {T : Type} (r : QueryResponse T) :
    Except JsError (Option T) :=
  if responseFails r then .error (.error (responseFailMessage r))
  else .ok r.data

/-- A promise handle with the mutable bookkeeping record attached at
create_hook.tsx line 174 (`(promise as any).state`): `pid` identifies the
promise, `isQueryFinished` is the snapshot of `state.isQueryFinished` at the
time of the current call (set to `true` at line 152 once the external query
resolved). -/
structure PromiseHandle where
  pid : Nat
  isQueryFinished : Bool
deriving DecidableEq

/-- A value of the `dataAccess.query` map: either the bookkeeping record
`{ cacheTimeToRefresh, promise }` (with `promise` null for entries written by
priming, create_hook.tsx lines 404-411) or a terminal `Error`
(create_hook.tsx lines 447-449). -/
inductive QueryCacheEntry where
  | record (cacheTimeToRefresh : Nat) (promise : Option PromiseHandle)
  | failure (e : JsError)
deriving DecidableEq

/-- The two bookkeeping maps of the cache store, restricted to the cache key
the current call derives (`cacheId = cache.id({args})`).  Every read, write
and delete the engine performs on `dataAccess.query` / `dataAccess.suspense`
is at this single key. -/
structure KeyState (T : Type) where
  request : Option QueryCacheEntry
  suspension : Option (ProbeState T)
deriving DecidableEq

/-- The configuration consumed by `createHook`, after validation: `debug`,
`cache.duration`, `cache.isPrimableFromCache`, `constraints.enforce`
(optional, used only under JavaScript truthiness, so `undefined` behaves as
`false`), `constraints.maxDelay` (`none` when not a number) and
`queryName = query.name`. -/
structure Configuration where
  debug : Bool
  queryName : String
  duration : Nat
  isPrimableFromCache : Bool
  enforce : Bool
  maxDelay : Option Nat
deriving DecidableEq

/-- Result of one synchronous engine step: its outcome, the key state it
leaves behind, how many times it invoked the external `query` function, and
the `console.log` lines it emitted. -/
structure StepResult (α : Type) (T : Type) where
  outcome : α
  state : KeyState T
  queryCalls : Nat
  log : List String
deriving DecidableEq

/-- A `debug && console.log(msg)` statement: emits `msg` only when `debug`
is set. -/
def dlog (debug : Bool) (msg : String) : List String :=
  if debug then [msg] else []

/-- The shared message prefix of every log line. -/
def msgPre (cfg : Configuration) (cacheId : String) : String :=
  "[data-access:" ++ cfg.queryName ++ ":" ++ cacheId ++ "] "

/-- create_hook.tsx line 202: `cacheQueryRequest?.promise` — the optional
chaining read of the promise of a (possibly absent) record entry. -/
def entryPromise : Option QueryCacheEntry → Option PromiseHandle
  | some (.record _ (some p)) => some p
  | _ => none

/-- create_hook.tsx lines 181-234, `requestQueryPromise`: looks up the
request cache; a stored `Error` is rethrown; an entry with a (non-null)
promise is returned as is (dedup — the query is not invoked); otherwise the
query promise is executed (`queryPromise`, which invokes the external
`query(args)` synchronously before its first await) and a fresh record with
`cacheTimeToRefresh = Date.now() + cache.duration` is stored.  `freshPid`
identifies the newly created promise; its `state.isQueryFinished` starts
`false` (line 148). -/
def requestQueryPromise {T : Type} (cfg : Configuration) (cacheId : String)
    (now : Nat) (freshPid : Nat) (s : KeyState T) :
    StepResult (Except JsError PromiseHandle) T :=
  let pre := msgPre cfg cacheId
  let log0 := dlog cfg.debug (pre ++ "read query cache.")
  match s.request with
  | some (.failure e) => ⟨.error e, s, 0, log0⟩
  | req =>
      match entryPromise req with
      | some p =>
          ⟨.ok p, s, 0, log0 ++ dlog cfg.debug (pre ++ "query cache found.")⟩
      | none =>
          let handle : PromiseHandle := ⟨freshPid, false⟩
          ⟨.ok handle,
           { s with request := some (.record (now + cfg.duration) (some handle)) },
           1,
           log0 ++ dlog cfg.debug (pre ++ "query cache *not* found.")
                ++ dlog cfg.debug (pre ++ "execute query.")⟩

/-- Outcome of one accessor call: rethrow of a stored error (or a runtime
`TypeError`), a materialized result, or the lazy proxy placeholder. -/
inductive AccessOutcome (T : Type) where
  | raise (e : JsError)
  | materialized (v : T)
  | placeholder
deriving DecidableEq

/-- create_hook.tsx lines 390-415: the branch taken when no finished request
entry was found.  If priming is enabled and the materialized cache produced a
result, a record with a null promise and `cacheTimeToRefresh = now +
duration` is written and the cache result is returned; otherwise the lazy
placeholder is returned. -/
def accessorPrime {T : Type} (cfg : Configuration) (cacheId : String)
    (now : Nat) (cacheResult : Option T) (s : KeyState T)
    (log0 : List String) : StepResult (AccessOutcome T) T :=
  let pre := msgPre cfg cacheId
  match cfg.isPrimableFromCache, cacheResult with
  | true, some v =>
      ⟨.materialized v,
       { s with request := some (.record (now + cfg.duration) none) },
       0,
       log0 ++ dlog cfg.debug (pre ++ "request query cache primed from data cache.")
            ++ dlog cfg.debug (pre ++ "request data cache used.")⟩
  | _, _ => ⟨.placeholder, s, 0, log0⟩

/-- create_hook.tsx lines 301-465 (minus the proxy body): one synchronous
accessor call.  Inputs: the configuration, the derived cache key, the
current clock (`Date.now()`), the value the external materialized-cache read
`cache.get(...)` returns, and the key state.  Faithful to the source order:
a stored `Error` entry is rethrown (line 357); then the condition
`cacheQueryRequest && (cacheQueryRequest.promise as any).state.isQueryFinished`
is evaluated — for an entry whose `promise` is `null` (a primed entry) this
property read on `null` raises a `TypeError`; a finished entry past its
`cacheTimeToRefresh` causes both map entries for the key to be deleted in a
single `set` update and the call falls to the placeholder return; a finished
fresh entry returns the cache result when available; otherwise the priming
branch (`accessorPrime`) runs. -/
def accessorCall {T : Type} (cfg : Configuration) (cacheId : String)
    (now : Nat) (cacheResult : Option T) (s : KeyState T) :
    StepResult (AccessOutcome T) T :=
  let pre := msgPre cfg cacheId
  let log0 := dlog cfg.debug (pre ++ "execute request.")
      ++ dlog cfg.debug (pre ++ "read data cache.")
  match s.request with
  | some (.failure e) => ⟨.raise e, s, 0, log0⟩
  | some (.record _ none) =>
      ⟨.raise (.typeError "Cannot read properties of null (reading state)"),
       s, 0, log0⟩
  | some (.record cacheTimeToRefresh (some p)) =>
      if p.isQueryFinished then
        if now > cacheTimeToRefresh then
          ⟨.placeholder, ⟨none, none⟩, 0,
           log0 ++ dlog cfg.debug (pre ++ "request query cache found.")
                ++ dlog cfg.debug (pre ++ "request cache expired.")⟩
        else
          match cacheResult with
          | some v =>
              ⟨.materialized v, s, 0,
               log0 ++ dlog cfg.debug (pre ++ "request query cache found.")
                    ++ dlog cfg.debug (pre ++ "request data cache used.")⟩
          | none =>
              ⟨.placeholder, s, 0,
               log0 ++ dlog cfg.debug (pre ++ "request query cache found.")⟩
      else
        accessorPrime cfg cacheId now cacheResult s
          (log0 ++ dlog cfg.debug (pre ++ "request query cache *not* found."))
  | none =>
      accessorPrime cfg cacheId now cacheResult s
        (log0 ++ dlog cfg.debug (pre ++ "request query cache *not* found."))

/-- create_hook.tsx lines 431-459 together with `suspenseRequestQuery`
(lines 239-296): accessing any property of the returned placeholder proxy.
A cached probe for the key is reused; otherwise `requestQueryPromise` runs
(propagating a rethrown terminal error), the resulting promise is wrapped by
`suspend` into a fresh probe (pending, since the query has only just been
issued), the probe is stored under the key, and then invoked. -/
def placeholderAccess {T : Type} (cfg : Configuration) (cacheId : String)
    (now : Nat) (freshPid : Nat) (s : KeyState T) :
    StepResult (ProbeOutcome T) T :=
  let pre := msgPre cfg cacheId
  let log0 := dlog cfg.debug (pre ++ "execute suspense!")
      ++ dlog cfg.debug (pre ++ "read suspense cache.")
  match s.suspension with
  | some ps =>
      ⟨probeCall ps, s, 0,
       log0 ++ dlog cfg.debug (pre ++ "suspense cache found for.")⟩
  | none =>
      let r := requestQueryPromise cfg cacheId now freshPid s
      match r.outcome with
      | .error e =>
          ⟨.raised e, r.state, r.queryCalls,
           log0 ++ dlog cfg.debug (pre ++ "suspense cache *not* found.")
                ++ dlog cfg.debug (pre ++ "expecute query promise.") ++ r.log⟩
      | .ok p =>
          let probe : ProbeState T := .pending p.pid
          ⟨probeCall probe, { r.state with suspension := some probe },
           r.queryCalls,
           log0 ++ dlog cfg.debug (pre ++ "suspense cache *not* found.")
                ++ dlog cfg.debug (pre ++ "expecute query promise.") ++ r.log⟩

/-- create_hook.tsx lines 310-330, `finishProfiling`: computes the elapsed
duration between the timestamp taken at accessor entry (line 309) and the
one taken when the operation completed; when `maxDelay` is configured,
exceeded, and `enforce` is set it throws `ErrorTimedOut(queryName, cacheId)`.
Returns the thrown error, if any.  (`finishProfiling` only exists when
`constraints.maxDelay` is a number, line 307.) -/
def finishProfiling (cfg : Configuration) (cacheId : String)
    (timeStart timeEnd : Nat) : Option JsError :=
  match cfg.maxDelay with
  | none => none
  | some maxDelay =>
      let duration := timeEnd - timeStart
      if duration > maxDelay then
        if cfg.enforce then some (.timedOut cfg.queryName cacheId) else none
      else none

/-- create_hook.tsx lines 440-457, the `onDone` callback run by the `.then`
continuation when the operation completes: `finishProfiling` runs inside a
`try`; a thrown timeout error is caught and written into the request cache
as a terminal entry for the key.  `onDone` itself never rethrows. -/
def onDoneStep {T : Type} (cfg : Configuration) (cacheId : String)
    (timeStart timeEnd : Nat) (s : KeyState T) : KeyState T :=
  match cfg.maxDelay with
  | none => s
  | some _ =>
      match finishProfiling cfg cacheId timeStart timeEnd with
      | some e => { s with request := some (.failure e) }
      | none => s

/-- create_hook.tsx line 152: `state.isQueryFinished = true`, set on the
record the request cache holds for the promise once the external query
resolved (before response validation). -/
def markQueryFinished {T : Type} (s : KeyState T) : KeyState T :=
  { s with request := s.request.map (fun e =>
      match e with
      | .record t (some p) => .record t (some ⟨p.pid, true⟩)
      | e2 => e2) }

/-- Settlement of the suspended chain after the external query resolved and
validation passed: `isQueryFinished` flips to `true` (line 152), the shaped
result `v` flows through the `.then` continuation which first runs `onDone`
(line 278-281; a timeout error raised there is swallowed into the request
cache), and the stored probe transitions to success with `v`. -/
def completeSuccess {T : Type} (cfg : Configuration) (cacheId : String)
    (timeStart timeEnd : Nat) (v : T) (s : KeyState T) : KeyState T :=
  let s1 := onDoneStep cfg cacheId timeStart timeEnd (markQueryFinished s)
  { s1 with suspension := s1.suspension.map (fun _ => .success v) }

/-- Settlement of the suspended chain after response validation failed:
`isQueryFinished` was already set (line 152 precedes the check), the
rejection bypasses the `.then` success continuation (so `onDone` does not
run) and the stored probe transitions to error. -/
def completeFailure {T : Type} (e : JsError) (s : KeyState T) : KeyState T :=
  let s1 := markQueryFinished s
  { s1 with suspension := s1.suspension.map (fun _ => .error e) }

/-- A JavaScript value as seen by the `typeof` checks of the configuration
validation (create_hook.tsx lines 106-134). -/
inductive JsVal where
  | undef
  | boolVal (b : Bool)
  | funcVal
  | numVal (n : Int)
  | strVal (s : String)
deriving DecidableEq

/-- `typeof v === 'boolean'`. -/
def typeofIsBoolean : JsVal → Bool
  | .boolVal _ => true
  | _ => false

/-- `typeof v === 'function'`. -/
def typeofIsFunction : JsVal → Bool
  | .funcVal => true
  | _ => false

/-- The configuration fields as passed to `createHook`, before validation.
`debug` is declared optional (`debug?: boolean` in query/types.tsx, with
documented default `false`); an omitted field is `undef`.  `cacheDuration`
is declared `number` and is compared against zero without a `typeof`
check. -/
structure RawConfiguration where
  debug : JsVal
  cacheDuration : Int
  cacheId : JsVal
  cacheGet : JsVal
  cacheSet : JsVal
  cacheIsPrimableFromCache : JsVal
  query : JsVal
deriving DecidableEq

/-- create_hook.tsx lines 106-134: the validation block run once at
construction, in source order; the first failing check throws.  Returns the
thrown configuration error, if any. -/
def validateConfiguration (c : RawConfiguration) : Option JsError :=
  if !typeofIsBoolean c.debug then
    some (.error "Invalid `debug` value. Must be a boolean.")
  else if c.cacheDuration ≤ 0 then
    some (.error "Invalid `cache.duration` value. Must be an integer greater than zero.")
  else if !typeofIsFunction c.cacheId then
    some (.error "Invalid `cache.id` value. Must be a function.")
  else if !typeofIsFunction c.cacheGet then
    some (.error "Invalid `cache.get` value. Must be a function.")
  else if !typeofIsFunction c.cacheSet then
    some (.error "Invalid `cache.set` value. Must be a function.")
  else if !typeofIsBoolean c.cacheIsPrimableFromCache then
    some (.error "Invalid `cache.isPrimableFromCache` value. Must be a boolean.")
  else if !typeofIsFunction c.query then
    some (.error "Invalid `query` value. Must be a function.")
  else none

lemma strTruthy_eq_true_iff (o : Option String) :
    strTruthy o = true ↔ ∃ s, o = some s ∧ s ≠ "" := by
  cases o with
  | none => simp [strTruthy]
  | some s => simp [strTruthy]

lemma responseFails_eq_true_iff {T : Type} (r : QueryResponse T) :
    responseFails r = true ↔
      (r.status ≠ 200 ∨ (∃ s, r.error = some s ∧ s ≠ "") ∨ r.data = none) := by
  simp [responseFails, Bool.or_eq_true, bne_iff_ne,
    Option.isNone_iff_eq_none, strTruthy_eq_true_iff, or_assoc]

/-- C1: for every asynchronous operation wrapped by `suspend`, invoking the
returned zero-argument probe while the operation is still pending throws the
suspender carrying the pending operation; invoking it after the operation
resolved returns the resolved value; invoking it after the operation failed
throws the failure value. -/
theorem claim_C1 (T : Type) (pid : Nat) (v : T) (e : JsError) :
    probeCall (suspendStateOf pid (Settlement.unsettled : Settlement T))
        = ProbeOutcome.suspendThrow pid
    ∧ probeCall (suspendStateOf pid (Settlement.resolved v)) = ProbeOutcome.value v
    ∧ probeCall (suspendStateOf pid (Settlement.rejected e : Settlement T))
        = ProbeOutcome.raised e :=
  ⟨rfl, rfl, rfl⟩

/-- C3: the claim says an accessor call on a key whose RequestEntry was
created by priming (a record with a null operation handle) completes without
raising and returns the materialized cache result.  The code instead
evaluates `(cacheQueryRequest.promise as any).state.isQueryFinished` on the
null handle, so every such call raises a `TypeError` — for any clock value,
any cache result, and any suspension entry — contradicting the claim and the
code's own comment that this promise "is never checked/used". -/
theorem claim_C3 (T : Type) (cfg : Configuration) (cacheId : String)
    (now t : Nat) (cacheResult : Option T) (susp : Option (ProbeState T)) :
    (accessorCall cfg cacheId now cacheResult
        (⟨some (QueryCacheEntry.record t none), susp⟩ : KeyState T)).outcome
      = AccessOutcome.raise
          (JsError.typeError "Cannot read properties of null (reading state)") :=
  rfl

/-- C9: the claim says construction raises exactly when the configuration is
invalid, where `debug` is invalid only when present and not boolean.  The
validation block instead requires `typeof debug === 'boolean'`
unconditionally, so an otherwise fully valid configuration that simply omits
`debug` (declared `debug?: boolean` with documented default `false`) throws
at construction; supplying `debug: false` is the only difference in the
accepted configuration below. -/
theorem claim_C9 :
    validateConfiguration
        ⟨JsVal.undef, 60000, JsVal.funcVal, JsVal.funcVal, JsVal.funcVal,
          JsVal.boolVal true, JsVal.funcVal⟩
      = some (JsError.error "Invalid `debug` value. Must be a boolean.")
    ∧ validateConfiguration
        ⟨JsVal.boolVal false, 60000, JsVal.funcVal, JsVal.funcVal, JsVal.funcVal,
          JsVal.boolVal true, JsVal.funcVal⟩
      = none :=
  ⟨rfl, rfl⟩

/-- C4 (counterexample): the claim says the failure message is
"(`status`) Response failed" followed by nothing when no error field is
present, and that any response with an error field present fails validation.
The code appends a period when the error field is not truthy, and an empty
error string (present but falsy) does not fail validation at all. -/
theorem claim_C4_counterexample :
    queryPromiseOutcome (⟨404, none, none⟩ : QueryResponse Nat)
        = Except.error (JsError.error "(404) Response failed.")
    ∧ "(404) Response failed." ≠ "(404) Response failed"
    ∧ queryPromiseOutcome (⟨200, some 5, some ""⟩ : QueryResponse Nat)
        = Except.ok (some 5) := by
  refine ⟨?_, by decide, ?_⟩ <;> rfl

/-- C4 (amended): a query response fails validation exactly when its status
is not 200, or its error field is truthy (present and non-empty), or its
data is absent; the failure message is exactly "(`status`) Response failed"
followed by ": `error`" when the error field is truthy and by "." otherwise;
a response with status 200, no error field and present data passes
validation. -/
theorem claim_C4 (T : Type) (r : QueryResponse T) :
    ((∃ e, queryPromiseOutcome r = Except.error e)
        ↔ (r.status ≠ 200 ∨ (∃ s, r.error = some s ∧ s ≠ "") ∨ r.data = none))
    ∧ (∀ m, queryPromiseOutcome r = Except.error (JsError.error m) →
        m = "(" ++ toString r.status ++ ") Response failed" ++
          (if strTruthy r.error then ": " ++ r.error.getD "" else "."))
    ∧ (r.status = 200 → r.error = none → r.data.isSome = true →
        queryPromiseOutcome r = Except.ok r.data) := by
  have hiff := responseFails_eq_true_iff r
  by_cases hf : responseFails r = true
  · have hout : queryPromiseOutcome r
        = Except.error (JsError.error (responseFailMessage r)) := by
      simp [queryPromiseOutcome, hf]
    refine ⟨⟨fun _ => hiff.1 hf, fun _ => ⟨_, hout⟩⟩, ?_, ?_⟩
    · intro m hm
      rw [hout] at hm
      simp only [Except.error.injEq, JsError.error.injEq] at hm
      rw [← hm]
      rfl
    · intro h200 herr hdata
      exfalso
      obtain ⟨v, hv⟩ := Option.isSome_iff_exists.mp hdata
      rw [responseFails, h200, herr, hv] at hf
      simp [strTruthy] at hf
  · have hf' : responseFails r = false := by
      simpa using hf
    have hout : queryPromiseOutcome r = Except.ok r.data := by
      simp [queryPromiseOutcome, hf']
    refine ⟨⟨?_, ?_⟩, ?_, fun _ _ _ => hout⟩
    · rintro ⟨e, he⟩
      rw [hout] at he
      cases he
    · intro hcond
      exfalso
      rw [hiff.2 hcond] at hf'
      cases hf'
    · intro m hm
      rw [hout] at hm
      cases hm

/-- Witness for C4 (amended): the failure message of a concrete failing
response, obtained through the theorem. -/
theorem claim_C4_witness :
    queryPromiseOutcome (⟨500, some 7, some "boom"⟩ : QueryResponse Nat)
        = Except.error (JsError.error "(500) Response failed: boom")
    ∧ "(500) Response failed: boom"
        = "(" ++ toString (500 : Int) ++ ") Response failed" ++
            (if strTruthy (some "boom") then
              ": " ++ (some "boom" : Option String).getD "" else ".") := by
  refine ⟨by rfl, ?_⟩
  exact (claim_C4 Nat ⟨500, some 7, some "boom"⟩).2.1
    "(500) Response failed: boom" (by rfl)

/-- C5 (counterexample): the claim says the request coordinator invokes the
external query function only when no entry is present for the key.  For a
key holding a primed entry (present, non-failed, null operation handle) the
coordinator nevertheless invokes the query. -/
theorem claim_C5_counterexample :
    ((⟨some (QueryCacheEntry.record 100 none), none⟩ : KeyState Nat).request ≠ none)
    ∧ (requestQueryPromise ⟨false, "q", 1000, true, false, none⟩ "k" 50 3
        (⟨some (QueryCacheEntry.record 100 none), none⟩ : KeyState Nat)).queryCalls
      = 1 := by
  refine ⟨by decide, rfl⟩

/-- C5 (amended): when the coordinator finds an existing non-failed entry
holding a non-null operation handle it returns that handle without invoking
the external query function and without changing the store; it invokes the
query function (storing a fresh entry with the new handle and expiry
`now + duration`) exactly when no entry is present or the present entry
holds a null handle (a primed entry); and a second call on the state left by
a fresh invocation shares the stored in-flight handle without invoking the
query again, so concurrent callers for the same key share one in-flight
call. -/
theorem claim_C5 (T : Type) (cfg : Configuration) (cacheId : String)
    (now pid now2 pid2 t : Nat) (p : PromiseHandle)
    (susp : Option (ProbeState T)) :
    ((requestQueryPromise cfg cacheId now pid
        (⟨some (QueryCacheEntry.record t (some p)), susp⟩ : KeyState T)).outcome
       = Except.ok p
     ∧ (requestQueryPromise cfg cacheId now pid
        (⟨some (QueryCacheEntry.record t (some p)), susp⟩ : KeyState T)).queryCalls
       = 0
     ∧ (requestQueryPromise cfg cacheId now pid
        (⟨some (QueryCacheEntry.record t (some p)), susp⟩ : KeyState T)).state
       = ⟨some (QueryCacheEntry.record t (some p)), susp⟩)
    ∧ ((requestQueryPromise cfg cacheId now pid
        (⟨none, susp⟩ : KeyState T)).queryCalls = 1
     ∧ (requestQueryPromise cfg cacheId now pid
        (⟨none, susp⟩ : KeyState T)).state.request
       = some (QueryCacheEntry.record (now + cfg.duration)
           (some (⟨pid, false⟩ : PromiseHandle)))
     ∧ (requestQueryPromise cfg cacheId now pid
        (⟨none, susp⟩ : KeyState T)).outcome
       = Except.ok (⟨pid, false⟩ : PromiseHandle))
    ∧ (requestQueryPromise cfg cacheId now pid
        (⟨some (QueryCacheEntry.record t none), susp⟩ : KeyState T)).queryCalls = 1
    ∧ ((requestQueryPromise cfg cacheId now2 pid2
          ((requestQueryPromise cfg cacheId now pid
            (⟨none, susp⟩ : KeyState T)).state)).queryCalls = 0
     ∧ (requestQueryPromise cfg cacheId now2 pid2
          ((requestQueryPromise cfg cacheId now pid
            (⟨none, susp⟩ : KeyState T)).state)).outcome
       = Except.ok (⟨pid, false⟩ : PromiseHandle)) :=
  ⟨⟨rfl, rfl, rfl⟩, ⟨rfl, rfl, rfl⟩, rfl, rfl, rfl⟩

/-- C6 (counterexample): the claim says that after expiry is detected the
call "behaves as if no entry existed for the key".  With priming enabled and
a materialized cache hit, a call on a key with no entry primes and returns
the materialized result, while the same call on a key with an expired
finished entry deletes the entries and returns the placeholder — it does not
fall through to the priming branch. -/
theorem claim_C6_counterexample :
    (accessorCall ⟨false, "q", 1000, true, false, none⟩ "k" 200 (some (7 : Nat))
        (⟨some (QueryCacheEntry.record 100 (some ⟨0, true⟩)),
          some (ProbeState.pending 0)⟩ : KeyState Nat)).outcome
      = AccessOutcome.placeholder
    ∧ (accessorCall ⟨false, "q", 1000, true, false, none⟩ "k" 200 (some (7 : Nat))
        (⟨none, none⟩ : KeyState Nat)).outcome
      = AccessOutcome.materialized 7 := by
  refine ⟨by rfl, by rfl⟩

/-- C6 (amended): for a key whose entry holds a completed operation and whose
expiry time is in the past, the accessor call deletes both the RequestEntry
and the SuspensionEntry for the key in the same update and returns the lazy
placeholder without applying the priming path in the same call (it does not
behave exactly as if no entry existed when priming could apply); accessing
that placeholder issues a new request, so a subsequent access
re-requests. -/
theorem claim_C6 (T : Type) (cfg : Configuration) (cacheId : String)
    (now t : Nat) (p : PromiseHandle) (cacheResult : Option T)
    (susp : Option (ProbeState T))
    (hfin : p.isQueryFinished = true) (hexp : now > t) :
    (accessorCall cfg cacheId now cacheResult
        (⟨some (QueryCacheEntry.record t (some p)), susp⟩ : KeyState T)).state
      = ⟨none, none⟩
    ∧ (accessorCall cfg cacheId now cacheResult
        (⟨some (QueryCacheEntry.record t (some p)), susp⟩ : KeyState T)).outcome
      = AccessOutcome.placeholder
    ∧ (accessorCall cfg cacheId now cacheResult
        (⟨some (QueryCacheEntry.record t (some p)), susp⟩ : KeyState T)).queryCalls
      = 0
    ∧ ∀ pid, (placeholderAccess cfg cacheId now pid
        (⟨none, none⟩ : KeyState T)).queryCalls = 1 := by
  refine ⟨?_, ?_, ?_, fun pid => rfl⟩ <;>
    simp [accessorCall, hfin, hexp]

/-- Witness for C6 (amended): a concrete expired finished entry is deleted
from both maps. -/
theorem claim_C6_witness :
    (⟨0, true⟩ : PromiseHandle).isQueryFinished = true
    ∧ (200 : Nat) > 100
    ∧ (accessorCall ⟨false, "q", 1000, false, false, none⟩ "k" 200
        (none : Option Nat)
        (⟨some (QueryCacheEntry.record 100 (some ⟨0, true⟩)),
          some (ProbeState.pending 0)⟩ : KeyState Nat)).state
      = ⟨none, none⟩ := by
  refine ⟨rfl, by decide, ?_⟩
  exact (claim_C6 Nat ⟨false, "q", 1000, false, false, none⟩ "k" 200 100
    ⟨0, true⟩ none (some (ProbeState.pending 0)) rfl (by decide)).1

/-- C7: a terminal failure entry is re-raised verbatim (the identical error
value) by every accessor call, with the store left untouched, so the failure
is stable across repeated calls until the entry is externally cleared; and a
timeout failure observed by the `onDone` hook is written into the request
cache as exactly such a terminal entry. -/
theorem claim_C7 (T : Type) (cfg : Configuration) (cacheId : String)
    (now ts te m : Nat) (cacheResult : Option T) (e : JsError)
    (susp : Option (ProbeState T)) (s : KeyState T)
    (hm : cfg.maxDelay = some m) (hover : te - ts > m)
    (henf : cfg.enforce = true) :
    ((accessorCall cfg cacheId now cacheResult
        (⟨some (QueryCacheEntry.failure e), susp⟩ : KeyState T)).outcome
       = AccessOutcome.raise e
     ∧ (accessorCall cfg cacheId now cacheResult
        (⟨some (QueryCacheEntry.failure e), susp⟩ : KeyState T)).state
       = ⟨some (QueryCacheEntry.failure e), susp⟩
     ∧ (accessorCall cfg cacheId now cacheResult
        (⟨some (QueryCacheEntry.failure e), susp⟩ : KeyState T)).queryCalls = 0)
    ∧ (onDoneStep cfg cacheId ts te s).request
        = some (QueryCacheEntry.failure
            (JsError.timedOut cfg.queryName cacheId)) := by
  refine ⟨⟨rfl, rfl, rfl⟩, ?_⟩
  simp [onDoneStep, finishProfiling, hm, hover, henf]

/-- Witness for C7: a concrete overdue completion writes the timeout failure
into the request cache. -/
theorem claim_C7_witness :
    (⟨false, "getBook", 1000, false, true, some 10⟩ : Configuration).maxDelay
      = some 10
    ∧ (100 : Nat) - 0 > 10
    ∧ (⟨false, "getBook", 1000, false, true, some 10⟩ : Configuration).enforce
      = true
    ∧ (onDoneStep ⟨false, "getBook", 1000, false, true, some 10⟩ "getBook#id#0"
        0 100 (⟨none, none⟩ : KeyState Nat)).request
      = some (QueryCacheEntry.failure
          (JsError.timedOut "getBook" "getBook#id#0")) := by
  refine ⟨rfl, by decide, rfl, ?_⟩
  exact (claim_C7 Nat ⟨false, "getBook", 1000, false, true, some 10⟩
    "getBook#id#0" 0 0 100 10 none (JsError.error "x") none
    (⟨none, none⟩ : KeyState Nat) rfl (by decide) rfl).2

/-- C8: for a never-requested key, when priming is enabled and the
materialized cache has a value at first access, the accessor returns that
value, never invokes the query, and writes a RequestEntry with a null handle
expiring at `now + duration`; when priming is disabled, the same call
returns the placeholder unchanged, and accessing the placeholder fires the
query. -/
theorem claim_C8 (T : Type) (cfg : Configuration) (cacheId : String)
    (now pid : Nat) (v : T) (susp : Option (ProbeState T)) :
    (cfg.isPrimableFromCache = true →
        (accessorCall cfg cacheId now (some v)
            (⟨none, susp⟩ : KeyState T)).outcome = AccessOutcome.materialized v
        ∧ (accessorCall cfg cacheId now (some v)
            (⟨none, susp⟩ : KeyState T)).state.request
          = some (QueryCacheEntry.record (now + cfg.duration) none)
        ∧ (accessorCall cfg cacheId now (some v)
            (⟨none, susp⟩ : KeyState T)).queryCalls = 0)
    ∧ (cfg.isPrimableFromCache = false →
        (accessorCall cfg cacheId now (some v)
            (⟨none, susp⟩ : KeyState T)).outcome = AccessOutcome.placeholder
        ∧ (accessorCall cfg cacheId now (some v)
            (⟨none, susp⟩ : KeyState T)).state = ⟨none, susp⟩
        ∧ (placeholderAccess cfg cacheId now pid
            (⟨none, none⟩ : KeyState T)).queryCalls = 1) := by
  constructor
  · intro h
    refine ⟨?_, ?_, ?_⟩ <;> simp [accessorCall, accessorPrime, h]
  · intro h
    refine ⟨?_, ?_, rfl⟩ <;> simp [accessorCall, accessorPrime, h]

/-- Witness for C8: a concrete primable first access returns the cache value
without firing the query, and a concrete non-primable first access returns
the placeholder. -/
theorem claim_C8_witness :
    (⟨false, "q", 1000, true, false, none⟩ : Configuration).isPrimableFromCache
      = true
    ∧ (accessorCall ⟨false, "q", 1000, true, false, none⟩ "k" 5 (some (7 : Nat))
        (⟨none, none⟩ : KeyState Nat)).outcome = AccessOutcome.materialized 7
    ∧ (⟨false, "q", 1000, false, false, none⟩ : Configuration).isPrimableFromCache
      = false
    ∧ (accessorCall ⟨false, "q", 1000, false, false, none⟩ "k" 5 (some (7 : Nat))
        (⟨none, none⟩ : KeyState Nat)).outcome = AccessOutcome.placeholder := by
  refine ⟨rfl, ?_, rfl, ?_⟩
  · exact ((claim_C8 Nat ⟨false, "q", 1000, true, false, none⟩ "k" 5 0 7 none).1
      rfl).1
  · exact ((claim_C8 Nat ⟨false, "q", 1000, false, false, none⟩ "k" 5 0 7 none).2
      rfl).1

/-- C2: with `maxDelay` configured and the operation completing more than
`maxDelay` after the accessor-entry timestamp, if `enforce` is set then the
access path raises the timeout failure naming the query and the cache key
(the `onDone` hook raises it, persists it, and the accessor call issued
after completion raises it); if `enforce` is not set the same overage raises
nothing: `finishProfiling` throws no error, the `onDone` hook leaves the key
state unchanged, and the request entry survives completion untouched. -/
theorem claim_C2 (T : Type) (cfg : Configuration) (cacheId : String)
    (ts te m now : Nat) (v : T) (cacheResult : Option T) (s : KeyState T)
    (hm : cfg.maxDelay = some m) (hover : te - ts > m) :
    (cfg.enforce = true →
        (accessorCall cfg cacheId now cacheResult
            (completeSuccess cfg cacheId ts te v s)).outcome
          = AccessOutcome.raise (JsError.timedOut cfg.queryName cacheId)
        ∧ (JsError.timedOut cfg.queryName cacheId).message
          = "Data accessor " ++ cfg.queryName ++ " with id " ++ cacheId
              ++ " timed out.")
    ∧ (cfg.enforce = false →
        finishProfiling cfg cacheId ts te = none
        ∧ onDoneStep cfg cacheId ts te s = s
        ∧ (completeSuccess cfg cacheId ts te v s).request
            = (markQueryFinished s).request) := by
  constructor
  · intro henf
    refine ⟨?_, rfl⟩
    simp [completeSuccess, onDoneStep, finishProfiling, hm, hover, henf,
      accessorCall]
  · intro henf
    have hfp : finishProfiling cfg cacheId ts te = none := by
      simp [finishProfiling, hm, hover, henf]
    refine ⟨hfp, ?_, ?_⟩
    · simp [onDoneStep, hm, hfp]
    · simp [completeSuccess, onDoneStep, hm, hfp]

/-- Witness for C2: a concrete over-delay completion with enforcement makes
the next accessor call raise the timeout error naming the query and key. -/
theorem claim_C2_witness :
    (⟨false, "getBook", 1000, false, true, some 10⟩ : Configuration).maxDelay
      = some 10
    ∧ (100 : Nat) - 0 > 10
    ∧ (accessorCall ⟨false, "getBook", 1000, false, true, some 10⟩
        "getBook#id#0" 0 (none : Option Nat)
        (completeSuccess ⟨false, "getBook", 1000, false, true, some 10⟩
          "getBook#id#0" 0 100 7
          (⟨some (QueryCacheEntry.record 50 (some ⟨1, false⟩)),
            some (ProbeState.pending 1)⟩ : KeyState Nat))).outcome
      = AccessOutcome.raise (JsError.timedOut "getBook" "getBook#id#0") := by
  refine ⟨rfl, by decide, ?_⟩
  exact ((claim_C2 Nat ⟨false, "getBook", 1000, false, true, some 10⟩
    "getBook#id#0" 0 100 10 0 7 none
    (⟨some (QueryCacheEntry.record 50 (some ⟨1, false⟩)),
      some (ProbeState.pending 1)⟩ : KeyState Nat) rfl (by decide)).1 rfl).1

/-- C10: `debug` never alters control flow — two runs differing only in the
`debug` flag produce the same outcome (result value or raised error), leave
the key state identical, and invoke the query the same number of times, for
the accessor call, the placeholder access, the request coordinator and the
completion hook alike (only the emitted log may differ). -/
theorem claim_C10 (T : Type) (cfg : Configuration) (cacheId : String)
    (now pid ts te : Nat) (cacheResult : Option T) (s : KeyState T) :
    ((accessorCall { cfg with debug := true } cacheId now cacheResult s).outcome
       = (accessorCall { cfg with debug := false } cacheId now cacheResult s).outcome
     ∧ (accessorCall { cfg with debug := true } cacheId now cacheResult s).state
       = (accessorCall { cfg with debug := false } cacheId now cacheResult s).state
     ∧ (accessorCall { cfg with debug := true } cacheId now cacheResult s).queryCalls
       = (accessorCall { cfg with debug := false } cacheId now cacheResult s).queryCalls)
    ∧ ((placeholderAccess { cfg with debug := true } cacheId now pid s).outcome
       = (placeholderAccess { cfg with debug := false } cacheId now pid s).outcome
     ∧ (placeholderAccess { cfg with debug := true } cacheId now pid s).state
       = (placeholderAccess { cfg with debug := false } cacheId now pid s).state
     ∧ (placeholderAccess { cfg with debug := true } cacheId now pid s).queryCalls
       = (placeholderAccess { cfg with debug := false } cacheId now pid s).queryCalls)
    ∧ ((requestQueryPromise { cfg with debug := true } cacheId now pid s).outcome
       = (requestQueryPromise { cfg with debug := false } cacheId now pid s).outcome
     ∧ (requestQueryPromise { cfg with debug := true } cacheId now pid s).state
       = (requestQueryPromise { cfg with debug := false } cacheId now pid s).state
     ∧ (requestQueryPromise { cfg with debug := true } cacheId now pid s).queryCalls
       = (requestQueryPromise { cfg with debug := false } cacheId now pid s).queryCalls)
    ∧ onDoneStep { cfg with debug := true } cacheId ts te s
       = onDoneStep { cfg with debug := false } cacheId ts te s := by
  obtain ⟨req, susp⟩ := s
  have hreq : ∀ d : Bool,
      (requestQueryPromise { cfg with debug := d } cacheId now pid
          (⟨req, susp⟩ : KeyState T)).outcome
        = (requestQueryPromise { cfg with debug := false } cacheId now pid
          (⟨req, susp⟩ : KeyState T)).outcome
      ∧ (requestQueryPromise { cfg with debug := d } cacheId now pid
          (⟨req, susp⟩ : KeyState T)).state
        = (requestQueryPromise { cfg with debug := false } cacheId now pid
          (⟨req, susp⟩ : KeyState T)).state
      ∧ (requestQueryPromise { cfg with debug := d } cacheId now pid
          (⟨req, susp⟩ : KeyState T)).queryCalls
        = (requestQueryPromise { cfg with debug := false } cacheId now pid
          (⟨req, susp⟩ : KeyState T)).queryCalls := by
    intro d
    rcases req with _ | entry
    · exact ⟨rfl, rfl, rfl⟩
    · rcases entry with ⟨t, _ | p⟩ | e <;> exact ⟨rfl, rfl, rfl⟩
  refine ⟨?_, ?_, hreq true, ?_⟩
  · rcases req with _ | entry
    · rcases cacheResult with _ | v <;>
        rcases hb : cfg.isPrimableFromCache <;>
        simp [accessorCall, accessorPrime, hb]
    · rcases entry with ⟨t, _ | p⟩ | e
      · exact ⟨rfl, rfl, rfl⟩
      · by_cases hfin : p.isQueryFinished = true
        · by_cases hexp : now > t
          · refine ⟨?_, ?_, ?_⟩ <;> simp [accessorCall, hfin, hexp]
          · rcases cacheResult with _ | v <;>
              refine ⟨?_, ?_, ?_⟩ <;> simp [accessorCall, hfin, hexp]
        · have hfin' : p.isQueryFinished = false := by
            simpa using hfin
          rcases cacheResult with _ | v <;>
            rcases hb : cfg.isPrimableFromCache <;>
            refine ⟨?_, ?_, ?_⟩ <;>
            simp [accessorCall, accessorPrime, hfin', hb]
      · exact ⟨rfl, rfl, rfl⟩
  · rcases susp with _ | ps
    · have h1 := hreq true
      rcases hro : (requestQueryPromise { cfg with debug := true } cacheId now
          pid (⟨req, none⟩ : KeyState T)).outcome with e | p <;>
        rcases hro' : (requestQueryPromise { cfg with debug := false } cacheId
          now pid (⟨req, none⟩ : KeyState T)).outcome with e' | p' <;>
        simp [placeholderAccess, hro, hro'] <;>
        [skip; (rw [hro, hro'] at h1; simp at h1); (rw [hro, hro'] at h1; simp at h1); skip] <;>
        · rw [hro, hro'] at h1
          simp at h1
          simp [h1.1, h1.2.1, h1.2.2]
    · exact ⟨rfl, rfl, rfl⟩
  · rcases cfg.maxDelay with _ | m
    · simp [onDoneStep]
    · simp [onDoneStep, finishProfiling]

end DataAccessor
